import Mathlib

/-!
Shallow embedding of the data-refresh pipeline of the Bitcoin-Price-App
repository (React Native / TypeScript).  Numeric JSON values are modelled
as exact rationals (`ℚ`); where a claim is about IEEE special values
(division by zero producing Infinity / NaN) a dedicated `JsNum` type with
JavaScript division semantics is used.  Network / JSON failures and thrown
exceptions that are caught by the surrounding `try/catch` are modelled with
`Option` / `Except` / a `FetchResp` result type.
-/

namespace BitcoinApp

/-- Interval buttons of the chart screen: type `TimeInterval` in the chart
variant of the home screen. -/
inductive TimeInterval
  | oneD | oneW | oneM | oneY | allTime
deriving DecidableEq, Repr

/-- Shape of the CoinGecko `market_chart` response (`BitcoinHistoricalData`):
`prices`, `market_caps` and `total_volumes` are arrays of
`[timestamp, value]` pairs, ascending by timestamp. -/
structure BitcoinHistoricalData where
  prices : List (ℚ × ℚ)
  market_caps : List (ℚ × ℚ)
  total_volumes : List (ℚ × ℚ)
deriving Repr, DecidableEq

/-- Fields of `detailedData.market_data` read by `fetchBitcoinData` in
`index.tsx`.  `price_change_24h` and `price_change_percentage_24h` are
`Option` because the source applies `|| 0` to them (absent field becomes 0);
the remaining fields are dereferenced without a guard. -/
structure MarketData where
  current_price_usd : ℚ
  price_change_24h : Option ℚ
  price_change_percentage_24h : Option ℚ
  high_24h_usd : ℚ
  low_24h_usd : ℚ
  total_volume_usd : ℚ
  market_cap_usd : ℚ
deriving Repr, DecidableEq

/-- The `BitcoinPerformanceData` record published by the home screen. -/
structure BitcoinPerformanceData where
  currentPrice : ℚ
  previousPrice : ℚ
  priceChange : ℚ
  priceChangePercent : ℚ
  high24h : ℚ
  low24h : ℚ
  volume24h : ℚ
  marketCap : ℚ
  yearlyChange : ℚ
  yearlyChangePercent : ℚ
  priceOneYearAgo : ℚ
deriving Repr, DecidableEq

/-- Detailed strategy of `fetchBitcoinData` (`index.tsx`): the 24h fields
come from the provider's `market_data`; `previousPrice` is derived as
`newPrice - priceChange`; the yearly figures come from the first point of
the 365-day series.  Returns `none` exactly when the source throws
`No historical data available` (empty `prices`). -/
def computeDetailedSnapshot (md : MarketData) (yearly : BitcoinHistoricalData) :
    Option BitcoinPerformanceData :=
  match yearly.prices with
  | [] => none
  | p0 :: _ =>
    let newPrice := md.current_price_usd
    let priceChange := md.price_change_24h.getD 0
    let priceChangePercent := md.price_change_percentage_24h.getD 0
    let priceOneYearAgo := p0.2
    let yearlyChange := newPrice - priceOneYearAgo
    let yearlyChangePercent := (yearlyChange / priceOneYearAgo) * 100
    some
      { currentPrice := newPrice
        previousPrice := newPrice - priceChange
        priceChange := priceChange
        priceChangePercent := priceChangePercent
        high24h := md.high_24h_usd
        low24h := md.low_24h_usd
        volume24h := md.total_volume_usd
        marketCap := md.market_cap_usd
        yearlyChange := yearlyChange
        yearlyChangePercent := yearlyChangePercent
        priceOneYearAgo := priceOneYearAgo }

/-- Javascript `Math.max(...xs)` over a spread list, restricted to the
nonempty case (the source only applies it to `prices.slice(-48)` of a
nonempty `prices` array; on an empty spread JS would give `-Infinity`,
which cannot be reached here). -/
def jsMathMax : List ℚ → Option ℚ
  | [] => none
  | x :: xs => some (xs.foldl max x)

/-- Javascript `Math.min(...xs)` over a spread list, nonempty case. -/
def jsMathMin : List ℚ → Option ℚ
  | [] => none
  | x :: xs => some (xs.foldl min x)

/-- The `previousPriceValue` expression of the self-derived
`fetchBitcoinData` variant:
`prices.length > 48 ? prices[prices.length - 48][1] : prices[prices.length - 2][1]`.
Returns `none` when the JS index is negative (a 0- or 1-element series),
where the source would read `undefined[1]` and throw a TypeError that the
surrounding catch turns into an error state. -/
def previousPriceValue (prices : List (ℚ × ℚ)) : Option ℚ :=
  if 48 < prices.length then (prices[prices.length - 48]?).map Prod.snd
  else if 2 ≤ prices.length then (prices[prices.length - 2]?).map Prod.snd
  else none

/-- Self-derived strategy of `fetchBitcoinData` (365-day-series-only
variant): every metric, including previous price and 24h high/low, is
computed from the single `days=365` series.  `none` models any path on
which the source throws (empty `prices`, negative index, empty
`market_caps` / `total_volumes`), which its catch turns into an error
state. -/
def computeSelfDerivedSnapshot (yearly : BitcoinHistoricalData) :
    Option BitcoinPerformanceData :=
  match yearly.prices, yearly.prices.getLast?,
      previousPriceValue yearly.prices, yearly.market_caps.getLast?,
      yearly.total_volumes.getLast? with
  | p0 :: _, some lastP, some previousPriceV, some lastCap, some lastVol =>
    let newPrice := lastP.2
    match jsMathMax (((yearly.prices.drop (yearly.prices.length - 48))).map Prod.snd),
        jsMathMin (((yearly.prices.drop (yearly.prices.length - 48))).map Prod.snd) with
    | some high24h, some low24h =>
      let priceChange := newPrice - previousPriceV
      let priceChangePercent := (priceChange / previousPriceV) * 100
      let priceOneYearAgo := p0.2
      let yearlyChange := newPrice - priceOneYearAgo
      let yearlyChangePercent := (yearlyChange / priceOneYearAgo) * 100
      some
        { currentPrice := newPrice
          previousPrice := previousPriceV
          priceChange := priceChange
          priceChangePercent := priceChangePercent
          high24h := high24h
          low24h := low24h
          volume24h := lastVol.2
          marketCap := lastCap.2
          yearlyChange := yearlyChange
          yearlyChangePercent := yearlyChangePercent
          priceOneYearAgo := priceOneYearAgo }
    | _, _ => none
  | _, _, _, _, _ => none

/-- The stride of the chart downsampler:
`Math.max(1, Math.ceil(seriesLength / targetPointCount))`.
Stated with natural ceiling division `(len + target - 1) / target`, which
agrees with `Math.ceil(len / target)` for every `target > 0`. -/
def strideStep (len target : ℕ) : ℕ :=
  max 1 ((len + target - 1) / target)

/-- The stride downsampler of `fetchChartData`:
`prices.filter((_, index) => index % step === 0)` with
`step = Math.max(1, Math.ceil(prices.length / targetPointCount))`.  The
source inlines this at each interval branch with target point counts
12 (1D fallback), 10 (1W), 8 (1M), 12 (1Y) and 15 (ALL). -/
def downsample {α : Type} (l : List α) (target : ℕ) : List α :=
  let step := strideStep l.length target
  (l.enum.filter (fun x => x.1 % step == 0)).map Prod.snd

/-- The published `ChartData` record: parallel arrays of axis labels and
price values (`datasets[0].data` in the source). -/
structure ChartData where
  labels : List String
  data : List ℚ
deriving Repr, DecidableEq

/-- Locale date/time formatting used for chart labels.  The bodies of
`toLocaleTimeString` / `toLocaleDateString` / `getFullYear` are JavaScript
runtime built-ins, not repository code, so they are abstracted as
arbitrary functions from a timestamp to a string; every theorem below
holds for any formatter. -/
structure DateFormatter where
  timeHM : ℚ → String
  monthDay : ℚ → String
  monthYear2 : ℚ → String
  yearOnly : ℚ → String

/-- Shape of the Gemini `/v2/ticker/btcusd` response: `changes` is an
array of hourly prices, newest first; `none` models an absent field
(the source guards with `data.changes && data.changes.length > 0`). -/
structure GeminiTicker where
  changes : Option (List ℚ)
deriving Repr, DecidableEq

/-- Label for index `index` of the reversed Gemini series:
`hoursAgo = 23 - index`; `'Now'` at 0, hour tags at multiples of 6, empty
otherwise.  `Int.tmod` matches the sign behaviour of the JS `%` operator. -/
def geminiLabel (index : ℕ) : String :=
  let hoursAgo : ℤ := 23 - (index : ℤ)
  if hoursAgo = 0 then "Now"
  else if hoursAgo.tmod 6 = 0 then s!"{hoursAgo}h"
  else ""

/-- The chart built from a nonempty Gemini `changes` array: the array is
reversed to ascending (oldest to newest) and labelled by index. -/
def chartFromGemini (changes : List ℚ) : ChartData :=
  let prices := changes.reverse
  { labels := prices.enum.map (fun x => geminiLabel x.1)
    data := prices }

/-- The Gemini branch condition of `fetchChartData` for the 1D interval:
`some changes` iff the request succeeded (`some ticker`) and
`data.changes && data.changes.length > 0`; `none` models a thrown request
or a missing/empty `changes` array. -/
def geminiHasData : Option GeminiTicker → Option (List ℚ)
  | some t =>
    match t.changes with
    | some (c :: cs) => some (c :: cs)
    | _ => none
  | none => none

/-- The CoinGecko fallback branch for the 1D interval: throw (`none`) on a
missing/empty `prices` array, otherwise stride-downsample to ~12 points
with hour:minute labels. -/
def coinGecko1DChart (fmt : DateFormatter) (d : BitcoinHistoricalData) :
    Option ChartData :=
  if d.prices.isEmpty then none
  else
    let processedPrices := downsample d.prices 12
    some
      { labels := processedPrices.map (fun item => fmt.timeHM item.1)
        data := processedPrices.map Prod.snd }

/-- Target display point count per CoinGecko interval branch (the 1D entry
is the fallback branch's 12). -/
def targetPoints : TimeInterval → ℕ
  | .oneD => 12
  | .oneW => 10
  | .oneM => 8
  | .oneY => 12
  | .allTime => 15

/-- Label formatter per CoinGecko interval branch: month/day for 1W and
1M, month/2-digit-year for 1Y, year only for ALL (1D uses hour:minute). -/
def intervalLabel (fmt : DateFormatter) : TimeInterval → ℚ → String
  | .oneD => fmt.timeHM
  | .oneW => fmt.monthDay
  | .oneM => fmt.monthDay
  | .oneY => fmt.monthYear2
  | .allTime => fmt.yearOnly

/-- The CoinGecko branch of `fetchChartData` for the 1W/1M/1Y/ALL
intervals: throw (`none`) on a missing/empty `prices` array, otherwise
stride-downsample to the interval's target point count and label each kept
point. -/
def coinGeckoRangeChart (fmt : DateFormatter) (interval : TimeInterval)
    (d : BitcoinHistoricalData) : Option ChartData :=
  if d.prices.isEmpty then none
  else
    let processedPrices := downsample d.prices (targetPoints interval)
    some
      { labels := processedPrices.map (fun item => intervalLabel fmt interval item.1)
        data := processedPrices.map Prod.snd }

/-- The whole of `fetchChartData`'s data path, as a function of the two
possible upstream responses (`none` = the request or JSON decode threw).
The overall result `none` models the catch branch `setChartData(null)`.
For 1D the Gemini ticker is attempted first and CoinGecko is consulted
only when Gemini fails or has no data; other intervals go straight to
CoinGecko. -/
def fetchChartData (fmt : DateFormatter) (interval : TimeInterval)
    (gemini : Option GeminiTicker) (coingecko : Option BitcoinHistoricalData) :
    Option ChartData :=
  match interval with
  | .oneD =>
    match geminiHasData gemini with
    | some changes => some (chartFromGemini changes)
    | none =>
      match coingecko with
      | none => none
      | some d => coinGecko1DChart fmt d
  | iv =>
    match coingecko with
    | none => none
    | some d => coinGeckoRangeChart fmt iv d

/-- Outcome of one `fetch(...)` + `response.json()` pair: `ok` carries the
decoded payload; `err` carries the message of the exception the source's
catch receives (network failure, JSON decode error, or a TypeError from a
missing field). -/
inductive FetchResp (α : Type)
  | ok (a : α)
  | err (msg : String)
deriving Repr, DecidableEq

/-- Flash color for a price increase. -/
def greenColor : String := "#22C55E"

/-- Flash color for a price decrease. -/
def redColor : String := "#EF4444"

/-- State cells of the home screen (superset across the screen variants:
the chart fields exist only in the chart variant).  `pendingClears` models
the not-yet-fired `setTimeout(() => setPriceColor(null), 2000)` timers as
their absolute firing times; `lastUpdated` is the wall-clock fetch time. -/
structure HomeState where
  price : Option ℚ
  previousPrice : Option ℚ
  loading : Bool
  lastUpdated : Option ℕ
  priceColor : Option String
  performanceData : Option BitcoinPerformanceData
  error : Option String
  chartData : Option ChartData
  chartLoading : Bool
  pendingClears : List ℕ
deriving DecidableEq

/-- The flash block repeated verbatim in every fetch routine:
`if (price !== null && newPrice !== price) { set green/red; setTimeout(clear, 2000) }`.
Returns the new `priceColor` and pending-clear-timer list. -/
def flashUpdate (oldPrice : Option ℚ) (newPrice : ℚ)
    (color : Option String) (pending : List ℕ) (now : ℕ) :
    Option String × List ℕ :=
  match oldPrice with
  | some p =>
    if newPrice ≠ p then
      (some (if p < newPrice then greenColor else redColor), pending ++ [now + 2000])
    else (color, pending)
  | none => (color, pending)

/-- Net state change of one `fetchBitcoinData` invocation of the detailed
strategy (`index.tsx`): on any throw the catch sets only the error message
(and the finally clears `loading` on an initial load); on success the data
cells are replaced and the flash block runs against the previously held
`price`.  `detailed` is the `/coins/bitcoin` response (`ok none` = payload
without a `market_data` field); `yearly` is the `days=365` response. -/
def fetchBitcoinDataStep (s : HomeState) (isInitialLoad : Bool) (now : ℕ)
    (detailed : FetchResp (Option MarketData))
    (yearly : FetchResp BitcoinHistoricalData) : HomeState :=
  let fail : String → HomeState := fun msg =>
    { s with error := some msg
             loading := if isInitialLoad then false else s.loading }
  match detailed with
  | .err m => fail m
  | .ok none => fail "Market data not available"
  | .ok (some md) =>
    match yearly with
    | .err m => fail m
    | .ok yd =>
      match computeDetailedSnapshot md yd with
      | none => fail "No historical data available"
      | some snap =>
        let newPrice := md.current_price_usd
        let fl := flashUpdate s.price newPrice s.priceColor s.pendingClears now
        { s with
          priceColor := fl.1
          pendingClears := fl.2
          previousPrice := s.price
          price := some newPrice
          performanceData := some snap
          lastUpdated := some now
          error := none
          loading := if isInitialLoad then false else s.loading }

/-- Net state change of one `fetchBitcoinData` invocation of the
self-derived strategy (single 365-day request variant).  A `none` from
`computeSelfDerivedSnapshot` with nonempty `prices` is a TypeError thrown
while indexing, whose message the catch surfaces. -/
def fetchBitcoinDataSelfStep (s : HomeState) (isInitialLoad : Bool) (now : ℕ)
    (yearly : FetchResp BitcoinHistoricalData) : HomeState :=
  let fail : String → HomeState := fun msg =>
    { s with error := some msg
             loading := if isInitialLoad then false else s.loading }
  match yearly with
  | .err m => fail m
  | .ok yd =>
    match computeSelfDerivedSnapshot yd with
    | none =>
      fail (if yd.prices.isEmpty then "No historical data available"
            else "Cannot read properties of undefined")
    | some snap =>
      let newPrice := snap.currentPrice
      let fl := flashUpdate s.price newPrice s.priceColor s.pendingClears now
      { s with
        priceColor := fl.1
        pendingClears := fl.2
        previousPrice := s.price
        price := some newPrice
        performanceData := some snap
        lastUpdated := some now
        error := none
        loading := if isInitialLoad then false else s.loading }

/-- Net state change of one `fetchChartData(interval)` invocation: the
finally clears `chartLoading`; the chart series is replaced wholesale
(`null` on the catch path); no other state cell is touched. -/
def applyChartFetch (s : HomeState) (fmt : DateFormatter)
    (interval : TimeInterval) (gemini : Option GeminiTicker)
    (coingecko : Option BitcoinHistoricalData) : HomeState :=
  { s with chartData := fetchChartData fmt interval gemini coingecko
           chartLoading := false }

/-- What the chart region of the screen shows (`renderChart`): a loading
spinner, the explicit `Chart data unavailable` text, or the chart. -/
inductive ChartView
  | loadingView
  | unavailable
  | chart (cd : ChartData)
deriving DecidableEq

/-- The `renderChart` dispatch: loading wins; then
`!chartData || chartData.datasets[0].data.length === 0` shows the
unavailable text; otherwise the line chart is drawn. -/
def renderChart (s : HomeState) : ChartView :=
  if s.chartLoading then .loadingView
  else
    match s.chartData with
    | none => .unavailable
    | some cd => if cd.data.length = 0 then .unavailable else .chart cd

/-- Discrete-event view of time passing with no further fetches until
time `t`: every pending flash-clear timer whose firing time has arrived
runs `setPriceColor(null)`; timers are one-shot. -/
def advanceClearsTo (s : HomeState) (t : ℕ) : HomeState :=
  { s with
    priceColor :=
      if s.pendingClears.any (fun c => decide (c ≤ t)) then none
      else s.priceColor
    pendingClears := s.pendingClears.filter (fun c => decide (t < c)) }

/-- IEEE-754 double as observed by the percent-change expressions: an
exact finite value, the two infinities, or NaN.  Used where a claim is
about division by a zero denominator, which exact `ℚ` arithmetic (where
`x / 0 = 0`) cannot model faithfully. -/
inductive JsNum
  | finite (q : ℚ)
  | inf
  | negInf
  | nan
deriving DecidableEq, Repr

/-- JavaScript subtraction on `JsNum`. -/
def jsSub : JsNum → JsNum → JsNum
  | .nan, _ => .nan
  | _, .nan => .nan
  | .finite a, .finite b => .finite (a - b)
  | .inf, .inf => .nan
  | .inf, _ => .inf
  | .negInf, .negInf => .nan
  | .negInf, _ => .negInf
  | .finite _, .inf => .negInf
  | .finite _, .negInf => .inf

/-- JavaScript division on `JsNum`: a zero denominator with a nonzero
numerator gives a signed infinity, `0 / 0` gives NaN. -/
def jsDiv : JsNum → JsNum → JsNum
  | .nan, _ => .nan
  | _, .nan => .nan
  | .finite a, .finite b =>
    if b = 0 then (if a = 0 then .nan else if 0 < a then .inf else .negInf)
    else .finite (a / b)
  | .inf, .finite b => if 0 ≤ b then .inf else .negInf
  | .negInf, .finite b => if 0 ≤ b then .negInf else .inf
  | .finite _, .inf => .finite 0
  | .finite _, .negInf => .finite 0
  | .inf, _ => .nan
  | .negInf, _ => .nan

/-- JavaScript multiplication on `JsNum`. -/
def jsMul : JsNum → JsNum → JsNum
  | .nan, _ => .nan
  | _, .nan => .nan
  | .finite a, .finite b => .finite (a * b)
  | .inf, .finite b => if b = 0 then .nan else if 0 < b then .inf else .negInf
  | .finite a, .inf => if a = 0 then .nan else if 0 < a then .inf else .negInf
  | .negInf, .finite b => if b = 0 then .nan else if 0 < b then .negInf else .inf
  | .finite a, .negInf => if a = 0 then .nan else if 0 < a then .negInf else .inf
  | .inf, .inf => .inf
  | .inf, .negInf => .negInf
  | .negInf, .inf => .negInf
  | .negInf, .negInf => .inf

/-- The percent-change expression of the self-derived bitcoin strategy
(`(priceChange / previousPriceValue) * 100` over `newPrice` and
`previousPriceValue`), re-evaluated with JavaScript number semantics to
expose its behaviour on a zero denominator.  `none` marks the same thrown
TypeError paths as `computeSelfDerivedSnapshot`. -/
def selfDerivedPercentJs (prices : List (ℚ × ℚ)) : Option JsNum :=
  match prices.getLast?, previousPriceValue prices with
  | some lastP, some prev =>
    some (jsMul (jsDiv (jsSub (.finite lastP.2) (.finite prev)) (.finite prev))
      (.finite 100))
  | _, _ => none

/-- One day of the Alpha Vantage daily series.  The numeric fields hold
the values `parseFloat` recovers from the payload's decimal strings
(keys `1. open` .. `4. close`); `volume` is kept as the raw string, as in
the source. -/
structure DailyEntry where
  openPrice : ℚ
  high : ℚ
  low : ℚ
  close : ℚ
  volume : String
deriving Repr, DecidableEq

/-- The decoded Alpha Vantage response as `fetchMSTRData` inspects it:
presence of the soft-error keys `Error Message` and `Note`, the two
`Meta Data` fields that are read, and the `Time Series (Daily)` object as
an association list in payload key order (descending by date); `none`
models a payload without that field. -/
structure AlphaVantagePayload where
  hasErrorMessage : Bool
  hasNote : Bool
  metaSymbol : String
  metaLastRefreshed : String
  timeSeries : Option (List (String × DailyEntry))
deriving Repr, DecidableEq

/-- The published `MSTRData` record.  The two derived fields are `JsNum`
because they are computed by unguarded subtraction/division. -/
structure MSTRData where
  symbol : String
  price : ℚ
  openPrice : ℚ
  high : ℚ
  low : ℚ
  volume : String
  lastRefreshed : String
  priceChange : JsNum
  priceChangePercent : JsNum
deriving Repr, DecidableEq

/-- The `previousClose` ternary of `fetchMSTRData`:
`previousData ? parseFloat(previousData['4. close']) : parseFloat(latestData['1. open'])`. -/
def previousCloseOf (latest : String × DailyEntry)
    (rest : List (String × DailyEntry)) : ℚ :=
  match rest with
  | prev :: _ => prev.2.close
  | [] => latest.2.openPrice

/-- The decode-and-derive part of `fetchMSTRData` (`strategy.tsx`): the
three soft-error checks in source order, then the latest and previous
trading days are read (`previousClose` falls back to the latest open when
only one day exists; an empty series object makes the source read a field
of `undefined` and throw).  `Except.error` carries the message the catch
stores in the error state. -/
def fetchMSTRData (p : AlphaVantagePayload) : Except String MSTRData :=
  if p.hasErrorMessage then .error "Invalid API call or symbol not found"
  else if p.hasNote then .error "API call frequency limit reached"
  else
    match p.timeSeries with
    | none => .error "No time series data available"
    | some [] => .error "Cannot read properties of undefined"
    | some (latest :: rest) =>
      let latestData := latest.2
      let currentPrice := latestData.close
      let previousClose := previousCloseOf latest rest
      let priceChange := jsSub (.finite currentPrice) (.finite previousClose)
      let priceChangePercent :=
        jsMul (jsDiv priceChange (.finite previousClose)) (.finite 100)
      .ok
        { symbol := p.metaSymbol
          price := currentPrice
          openPrice := latestData.openPrice
          high := latestData.high
          low := latestData.low
          volume := latestData.volume
          lastRefreshed := p.metaLastRefreshed
          priceChange := priceChange
          priceChangePercent := priceChangePercent }

/-- State cells of the strategy (MSTR) screen. -/
structure StrategyState where
  mstrData : Option MSTRData
  previousPrice : Option ℚ
  loading : Bool
  lastUpdated : Option ℕ
  priceColor : Option String
  error : Option String
  pendingClears : List ℕ
deriving DecidableEq

/-- Net state change of one `fetchMSTRData` invocation: failures (thrown
request errors and the three soft-error throws) set only the error
message; success replaces the record, runs the flash block against the
held `previousPrice`, and then stores the new price in `previousPrice`. -/
def fetchMSTRStep (s : StrategyState) (isInitialLoad : Bool) (now : ℕ)
    (resp : FetchResp AlphaVantagePayload) : StrategyState :=
  let fail : String → StrategyState := fun msg =>
    { s with error := some msg
             loading := if isInitialLoad then false else s.loading }
  match resp with
  | .err m => fail m
  | .ok payload =>
    match fetchMSTRData payload with
    | .error m => fail m
    | .ok d =>
      let fl := flashUpdate s.previousPrice d.price s.priceColor s.pendingClears now
      { s with
        priceColor := fl.1
        pendingClears := fl.2
        previousPrice := some d.price
        mstrData := some d
        lastUpdated := some now
        error := none
        loading := if isInitialLoad then false else s.loading }

/-- Property asserted by the spec for the stride downsampler at series `l`
and target point count `T`: the stride is `max(1, ceil(len / T))`, exactly
the indices divisible by the stride are kept, the output length is the
ceiling `(len + step - 1) / step`, and the output is an order-preserving
subsequence of the input (so no interpolated or averaged values occur). -/
def downsampleSpec {α : Type} (l : List α) (T : ℕ) : Prop :=
  strideStep l.length T = max 1 ((l.length + T - 1) / T) ∧
  downsample l T
      = (l.enum.filter (fun x => x.1 % strideStep l.length T == 0)).map Prod.snd ∧
  (downsample l T).length
      = (l.length + strideStep l.length T - 1) / strideStep l.length T ∧
  List.Sublist (downsample l T) l

/-- Formatter instance with constant labels, used to instantiate theorems
at concrete inputs. -/
def constFmt : DateFormatter :=
  { timeHM := fun _ => "t"
    monthDay := fun _ => "d"
    monthYear2 := fun _ => "m"
    yearOnly := fun _ => "y" }

/-- Market-data payload whose precomputed percent field (10) disagrees
with its own price and 24h-change fields (1000 and 500, so the derived
previous price is 500 and the consistent percent would be 100). -/
def mdInconsistent : MarketData :=
  { current_price_usd := 1000
    price_change_24h := some 500
    price_change_percentage_24h := some 10
    high_24h_usd := 1100
    low_24h_usd := 900
    total_volume_usd := 5
    market_cap_usd := 7 }

/-- Market-data payload whose fields are mutually consistent:
previous price 900, change 100, percent 100/9. -/
def mdConsistent : MarketData :=
  { current_price_usd := 1000
    price_change_24h := some 100
    price_change_percentage_24h := some (100 / 9)
    high_24h_usd := 1100
    low_24h_usd := 900
    total_volume_usd := 5
    market_cap_usd := 7 }

/-- One-point 365-day series. -/
def ydOnePoint : BitcoinHistoricalData :=
  { prices := [(0, 400)], market_caps := [(0, 1)], total_volumes := [(0, 1)] }

/-- Two-point 365-day series (spec scenario shape: 30000 a year ago,
60000 now). -/
def ydTwoPoint : BitcoinHistoricalData :=
  { prices := [(0, 30000), (1, 60000)]
    market_caps := [(1, 5)]
    total_volumes := [(1, 7)] }

/-- Alpha Vantage payload with the `Error Message` soft-error key. -/
def mstrPayloadErrMsg : AlphaVantagePayload :=
  { hasErrorMessage := true, hasNote := false, metaSymbol := ""
    metaLastRefreshed := "", timeSeries := none }

/-- Alpha Vantage payload with the `Note` (rate limit) soft-error key. -/
def mstrPayloadNote : AlphaVantagePayload :=
  { hasErrorMessage := false, hasNote := true, metaSymbol := ""
    metaLastRefreshed := "", timeSeries := none }

/-- Alpha Vantage payload without the `Time Series (Daily)` field. -/
def mstrPayloadNoSeries : AlphaVantagePayload :=
  { hasErrorMessage := false, hasNote := false, metaSymbol := ""
    metaLastRefreshed := "", timeSeries := none }

/-- Well-formed two-day Alpha Vantage payload: latest close 150, previous
close 100. -/
def mstrPayloadOk : AlphaVantagePayload :=
  { hasErrorMessage := false
    hasNote := false
    metaSymbol := "MSTR"
    metaLastRefreshed := "2024-01-02"
    timeSeries := some
      [("2024-01-02",
        { openPrice := 120, high := 160, low := 110, close := 150, volume := "10" }),
       ("2024-01-01",
        { openPrice := 90, high := 105, low := 85, close := 100, volume := "9" })] }

/-- Two-day Alpha Vantage payload whose previous close is exactly 0 while
the latest close is 150. -/
def mstrPayloadZeroPrev : AlphaVantagePayload :=
  { hasErrorMessage := false
    hasNote := false
    metaSymbol := "MSTR"
    metaLastRefreshed := "2024-01-02"
    timeSeries := some
      [("2024-01-02",
        { openPrice := 1, high := 2, low := 1, close := 150, volume := "10" }),
       ("2024-01-01",
        { openPrice := 0, high := 0, low := 0, close := 0, volume := "0" })] }

/-- Home-screen state holding price 50000, no pending flash timers. -/
def homeState0 : HomeState :=
  { price := some 50000, previousPrice := none, loading := false
    lastUpdated := none, priceColor := none, performanceData := none
    error := none, chartData := none, chartLoading := false
    pendingClears := [] }

/-- Strategy-screen state holding previous price 100. -/
def stratState0 : StrategyState :=
  { mstrData := none, previousPrice := some 100, loading := false
    lastUpdated := none, priceColor := none, error := none
    pendingClears := [] }

/-- Market-data payload realising the spec scenario prev 50000 / new
51000 / +1000 / +2 percent. -/
def mdFetch51000 : MarketData :=
  { current_price_usd := 51000
    price_change_24h := some 1000
    price_change_percentage_24h := some 2
    high_24h_usd := 51500
    low_24h_usd := 49500
    total_volume_usd := 3
    market_cap_usd := 9 }

/-- Gemini ticker carrying three hourly prices, newest first. -/
def geminiThree : GeminiTicker := { changes := some [3, 2, 1] }

/-- Snapshot the self-derived strategy computes from `ydTwoPoint`. -/
def snapSelfTwoPoint : BitcoinPerformanceData :=
  { currentPrice := 60000, previousPrice := 30000, priceChange := 30000
    priceChangePercent := 100, high24h := 60000, low24h := 30000
    volume24h := 7, marketCap := 5, yearlyChange := 30000
    yearlyChangePercent := 100, priceOneYearAgo := 30000 }

/-- Snapshot the detailed strategy computes from `mdConsistent` and
`ydOnePoint`. -/
def snapDetailedConsistent : BitcoinPerformanceData :=
  { currentPrice := 1000, previousPrice := 900, priceChange := 100
    priceChangePercent := 100 / 9, high24h := 1100, low24h := 900
    volume24h := 5, marketCap := 7, yearlyChange := 600
    yearlyChangePercent := 150, priceOneYearAgo := 400 }

/-- Snapshot the detailed strategy computes from `mdFetch51000` and
`ydOnePoint`. -/
def snapFetch51000 : BitcoinPerformanceData :=
  { currentPrice := 51000, previousPrice := 50000, priceChange := 1000
    priceChangePercent := 2, high24h := 51500, low24h := 49500
    volume24h := 3, marketCap := 9, yearlyChange := 50600
    yearlyChangePercent := 12650, priceOneYearAgo := 400 }

/-- Home-screen state before any fetch: no held price, no timers. -/
def homeStateFresh : HomeState :=
  { price := none, previousPrice := none, loading := true
    lastUpdated := none, priceColor := none, performanceData := none
    error := none, chartData := none, chartLoading := false
    pendingClears := [] }

/-- Home-screen state already holding price 51000. -/
def homeState51000 : HomeState :=
  { price := some 51000, previousPrice := some 50000, loading := false
    lastUpdated := none, priceColor := none, performanceData := none
    error := none, chartData := none, chartLoading := false
    pendingClears := [] }

/-- Count of multiples of `s` below `n`: the ceiling `(n + s - 1) / s`. -/
theorem count_multiples_range (s : ℕ) (hs : 0 < s) :
    ∀ n : ℕ, ((List.range n).filter (fun i => i % s == 0)).length = (n + s - 1) / s := by
  intro n
  induction n with
  | zero => simp [Nat.div_eq_of_lt (by omega : s - 1 < s)]
  | succ n ih =>
    obtain ⟨q, r, hrs, rfl⟩ : ∃ q r, r < s ∧ n = s * q + r :=
      ⟨n / s, n % s, Nat.mod_lt n hs, (Nat.div_add_mod n s).symm⟩
    have hmod : (s * q + r) % s = r := by
      rw [Nat.mul_add_mod, Nat.mod_eq_of_lt hrs]
    rw [List.range_succ, List.filter_append, List.length_append, ih]
    rw [List.filter_cons]
    simp only [hmod, List.filter_nil]
    by_cases hr : r = 0
    · rw [if_pos (by simp [hr])]
      have e1 : s * q + r + s - 1 = s * q + (s - 1) := by omega
      have e2 : s * q + r + 1 + s - 1 = s * q + (s * 1 + 0) := by omega
      rw [e1, e2, Nat.mul_add_div hs, Nat.mul_add_div hs,
        Nat.mul_add_div hs, Nat.div_eq_of_lt (by omega : s - 1 < s)]
      simp
    · rw [if_neg (by simp [hr])]
      have e1 : s * q + r + s - 1 = s * q + (s * 1 + (r - 1)) := by omega
      have e2 : s * q + r + 1 + s - 1 = s * q + (s * 1 + r) := by omega
      rw [e1, e2, Nat.mul_add_div hs, Nat.mul_add_div hs,
        Nat.mul_add_div hs, Nat.mul_add_div hs,
        Nat.div_eq_of_lt (by omega : r - 1 < s), Nat.div_eq_of_lt hrs]
      simp

/-- Filtering an enumerated list by a predicate on the index has the same
length as filtering the corresponding index range. -/
theorem length_filter_enumFrom {α : Type} (p : ℕ → Bool) :
    ∀ (l : List α) (n : ℕ),
      ((l.enumFrom n).filter (fun x => p x.1)).length
        = ((List.range' n l.length).filter p).length := by
  intro l
  induction l with
  | nil => intro n; simp
  | cons a t ih =>
    intro n
    have h1 : (a :: t).enumFrom n = (n, a) :: t.enumFrom (n + 1) := rfl
    have h2 : List.range' n (a :: t).length = n :: List.range' (n + 1) t.length := by
      rw [List.length_cons]
      exact List.range'_succ n t.length 1
    rw [h1, h2, List.filter_cons, List.filter_cons]
    by_cases hpn : p n = true <;> simp [hpn, ih]

/-- Index-predicate filter over `enum` counted via `List.range`. -/
theorem length_filter_enum_fst {α : Type} (p : ℕ → Bool) (l : List α) :
    ((l.enum.filter (fun x => p x.1)).map Prod.snd).length
      = ((List.range l.length).filter p).length := by
  rw [List.length_map, List.range_eq_range']
  exact length_filter_enumFrom p l 0

/-- The stride is always positive. -/
theorem strideStep_pos (len target : ℕ) : 0 < strideStep len target :=
  Nat.lt_of_lt_of_le Nat.zero_lt_one (le_max_left 1 _)

/-- Length of the stride-downsampled series: the ceiling of the input
length over the stride. -/
theorem downsample_length {α : Type} (l : List α) (target : ℕ) :
    (downsample l target).length
      = (l.length + strideStep l.length target - 1) / strideStep l.length target := by
  rw [show downsample l target
      = (l.enum.filter
          (fun x => x.1 % strideStep l.length target == 0)).map Prod.snd from rfl]
  exact (length_filter_enum_fst
      (fun i => i % strideStep l.length target == 0) l).trans
    (count_multiples_range _ (strideStep_pos l.length target) l.length)

/-- The downsampled series is an order-preserving subsequence of its
input. -/
theorem downsample_sublist {α : Type} (l : List α) (target : ℕ) :
    List.Sublist (downsample l target) l := by
  have h1 : List.Sublist (l.enum.filter
      (fun x => x.1 % strideStep l.length target == 0)) l.enum :=
    List.filter_sublist l.enum
  have h2 := h1.map Prod.snd
  rw [List.enum_map_snd] at h2
  exact h2

/-- C2: the chart downsampler computes stride
`max(1, ceil(length / target))`, keeps exactly the indices divisible by
the stride, yields `ceil(length / stride)` output points, and outputs an
order-preserving subsequence of the input with no interpolation or
averaging. -/
theorem downsample_stride_spec {α : Type} (l : List α) (T : ℕ) (_hT : 0 < T) :
    downsampleSpec l T :=
  ⟨rfl, rfl, downsample_length l T, downsample_sublist l T⟩

/-- Witness for C2 at a five-element series with target 2 (stride 3,
output indices 0 and 3). -/
theorem downsample_stride_spec_witness :
    0 < 2 ∧ downsampleSpec [(10 : ℚ), 20, 30, 40, 50] 2 :=
  ⟨by decide, downsample_stride_spec [(10 : ℚ), 20, 30, 40, 50] 2 (by decide)⟩

/-- C1 (amended): the self-derived strategy's snapshot satisfies both
change identities exactly; the detailed strategy satisfies
`priceChange = currentPrice - previousPrice` by construction, and its
`priceChangePercent` — taken verbatim from the provider — satisfies the
percent identity whenever the provider's precomputed fields are mutually
consistent. -/
theorem snapshot_change_identities :
    (∀ (yd : BitcoinHistoricalData) (s : BitcoinPerformanceData),
        computeSelfDerivedSnapshot yd = some s →
        s.priceChange = s.currentPrice - s.previousPrice ∧
        s.priceChangePercent
          = (s.currentPrice - s.previousPrice) / s.previousPrice * 100) ∧
    (∀ (md : MarketData) (yd : BitcoinHistoricalData) (s : BitcoinPerformanceData),
        computeDetailedSnapshot md yd = some s →
        s.priceChange = s.currentPrice - s.previousPrice) ∧
    (∀ (md : MarketData) (yd : BitcoinHistoricalData) (s : BitcoinPerformanceData),
        computeDetailedSnapshot md yd = some s →
        md.price_change_percentage_24h
          = some (md.price_change_24h.getD 0
              / (md.current_price_usd - md.price_change_24h.getD 0) * 100) →
        s.priceChangePercent = s.priceChange / s.previousPrice * 100) := by
  refine ⟨?_, ?_, ?_⟩
  · intro yd s h
    unfold computeSelfDerivedSnapshot at h
    split at h
    · split at h
      · cases h
        exact ⟨rfl, rfl⟩
      · exact absurd h (by simp)
    · exact absurd h (by simp)
  · intro md yd s h
    unfold computeDetailedSnapshot at h
    split at h
    · exact absurd h (by simp)
    · cases h
      show md.price_change_24h.getD 0
          = md.current_price_usd - (md.current_price_usd - md.price_change_24h.getD 0)
      ring
  · intro md yd s h hcons
    unfold computeDetailedSnapshot at h
    split at h
    · exact absurd h (by simp)
    · cases h
      show md.price_change_percentage_24h.getD 0
          = md.price_change_24h.getD 0
              / (md.current_price_usd - md.price_change_24h.getD 0) * 100
      rw [hcons, Option.getD_some]

/-- Counterexample to C1 as stated: a provider payload whose precomputed
percent field (10) disagrees with the percent recomputed from the same
snapshot's own change and previous price (100); the detailed strategy
publishes the inconsistent snapshot unchanged. -/
theorem detailed_percent_mismatch :
    (computeDetailedSnapshot mdInconsistent ydOnePoint).map
        BitcoinPerformanceData.priceChangePercent = some 10 ∧
    (computeDetailedSnapshot mdInconsistent ydOnePoint).map
        (fun s => s.priceChange / s.previousPrice * 100) = some 100 ∧
    (10 : ℚ) ≠ 100 := by
  refine ⟨?_, ?_, by norm_num⟩
  · simp [computeDetailedSnapshot, mdInconsistent, ydOnePoint]
  · simp [computeDetailedSnapshot, mdInconsistent, ydOnePoint]
    norm_num

/-- Witness for C1's theorem at concrete inputs: the self-derived
snapshot of `ydTwoPoint` and the detailed snapshot of the consistent
payload both satisfy their identities. -/
theorem snapshot_change_identities_witness :
    (snapSelfTwoPoint.priceChange
        = snapSelfTwoPoint.currentPrice - snapSelfTwoPoint.previousPrice ∧
     snapSelfTwoPoint.priceChangePercent
        = (snapSelfTwoPoint.currentPrice - snapSelfTwoPoint.previousPrice)
            / snapSelfTwoPoint.previousPrice * 100) ∧
    snapDetailedConsistent.priceChange
        = snapDetailedConsistent.currentPrice - snapDetailedConsistent.previousPrice ∧
    snapDetailedConsistent.priceChangePercent
        = snapDetailedConsistent.priceChange / snapDetailedConsistent.previousPrice * 100 :=
  ⟨snapshot_change_identities.1 ydTwoPoint snapSelfTwoPoint
     (by simp [computeSelfDerivedSnapshot, ydTwoPoint, snapSelfTwoPoint,
           previousPriceValue, jsMathMax, jsMathMin]; norm_num),
   snapshot_change_identities.2.1 mdConsistent ydOnePoint snapDetailedConsistent
     (by simp [computeDetailedSnapshot, mdConsistent, ydOnePoint,
           snapDetailedConsistent]; norm_num),
   snapshot_change_identities.2.2 mdConsistent ydOnePoint snapDetailedConsistent
     (by simp [computeDetailedSnapshot, mdConsistent, ydOnePoint,
           snapDetailedConsistent]; norm_num)
     (by simp [mdConsistent]; norm_num)⟩

/-- Sharp description of the published 1D fallback chart. -/
theorem coinGecko1DChart_spec (fmt : DateFormatter) (d : BitcoinHistoricalData)
    (cd : ChartData) (h : coinGecko1DChart fmt d = some cd) :
    cd.labels.length = cd.data.length ∧
    cd.data = (downsample d.prices 12).map Prod.snd := by
  unfold coinGecko1DChart at h
  split at h
  · exact absurd h (by simp)
  · cases h
    exact ⟨by simp, rfl⟩

/-- Sharp description of the published 1W/1M/1Y/ALL chart. -/
theorem coinGeckoRangeChart_spec (fmt : DateFormatter) (iv : TimeInterval)
    (d : BitcoinHistoricalData) (cd : ChartData)
    (h : coinGeckoRangeChart fmt iv d = some cd) :
    cd.labels.length = cd.data.length ∧
    cd.data = (downsample d.prices (targetPoints iv)).map Prod.snd := by
  unfold coinGeckoRangeChart at h
  split at h
  · exact absurd h (by simp)
  · cases h
    exact ⟨by simp, rfl⟩

/-- C3: every published `ChartSeries` has as many labels as values, and
its values are oldest-to-newest: either they are the reversal of the
newest-first Gemini `changes` array, or they are an order-preserving
selection from the CoinGecko series (so they inherit its ascending
timestamp order). -/
theorem chartSeries_invariant :
    ∀ (fmt : DateFormatter) (interval : TimeInterval)
      (gemini : Option GeminiTicker) (coingecko : Option BitcoinHistoricalData)
      (cd : ChartData),
      fetchChartData fmt interval gemini coingecko = some cd →
      cd.labels.length = cd.data.length ∧
      ((∃ changes, geminiHasData gemini = some changes ∧
          cd.data = changes.reverse) ∨
       (∃ d sel, coingecko = some d ∧ List.Sublist sel d.prices ∧
          cd.data = sel.map Prod.snd ∧
          (List.Pairwise (fun p q : ℚ × ℚ => p.1 ≤ q.1) d.prices →
           List.Pairwise (fun p q : ℚ × ℚ => p.1 ≤ q.1) sel))) := by
  intro fmt interval gemini coingecko cd h
  have range_case : ∀ iv (d : BitcoinHistoricalData),
      coinGeckoRangeChart fmt iv d = some cd →
      cd.labels.length = cd.data.length ∧
      (∃ sel, List.Sublist sel d.prices ∧
        cd.data = sel.map Prod.snd ∧
        (List.Pairwise (fun p q : ℚ × ℚ => p.1 ≤ q.1) d.prices →
         List.Pairwise (fun p q : ℚ × ℚ => p.1 ≤ q.1) sel)) := by
    intro iv d hd
    obtain ⟨hlen, hdata⟩ := coinGeckoRangeChart_spec fmt iv d cd hd
    exact ⟨hlen, downsample d.prices (targetPoints iv),
      downsample_sublist d.prices _, hdata,
      fun hs => hs.sublist (downsample_sublist d.prices _)⟩
  cases interval with
  | oneD =>
    cases hg : geminiHasData gemini with
    | some changes =>
      have h2 : some (chartFromGemini changes) = some cd := by
        rw [show fetchChartData fmt .oneD gemini coingecko
            = (match geminiHasData gemini with
               | some cs => some (chartFromGemini cs)
               | none => Option.bind coingecko (fun d => coinGecko1DChart fmt d))
            from by rcases coingecko with _ | d <;> rfl, hg] at h
        exact h
      cases h2
      exact ⟨by simp [chartFromGemini], Or.inl ⟨changes, rfl, rfl⟩⟩
    | none =>
      have h2 : Option.bind coingecko (fun d => coinGecko1DChart fmt d) = some cd := by
        rw [show fetchChartData fmt .oneD gemini coingecko
            = (match geminiHasData gemini with
               | some cs => some (chartFromGemini cs)
               | none => Option.bind coingecko (fun d => coinGecko1DChart fmt d))
            from by rcases coingecko with _ | d <;> rfl, hg] at h
        exact h
      rcases coingecko with _ | d
      · exact absurd h2 (by simp)
      · simp only [Option.bind_some] at h2
        obtain ⟨hlen, hdata⟩ := coinGecko1DChart_spec fmt d cd h2
        exact ⟨hlen, Or.inr ⟨d, downsample d.prices 12, rfl,
          downsample_sublist d.prices 12, hdata,
          fun hs => hs.sublist (downsample_sublist d.prices 12)⟩⟩
  | oneW =>
    rcases coingecko with _ | d
    · exact absurd h (by simp [fetchChartData])
    · obtain ⟨hlen, hsel, hsub, hdata, hpair⟩ := range_case .oneW d h
      exact ⟨hlen, Or.inr ⟨d, hsel, rfl, hsub, hdata, hpair⟩⟩
  | oneM =>
    rcases coingecko with _ | d
    · exact absurd h (by simp [fetchChartData])
    · obtain ⟨hlen, hsel, hsub, hdata, hpair⟩ := range_case .oneM d h
      exact ⟨hlen, Or.inr ⟨d, hsel, rfl, hsub, hdata, hpair⟩⟩
  | oneY =>
    rcases coingecko with _ | d
    · exact absurd h (by simp [fetchChartData])
    · obtain ⟨hlen, hsel, hsub, hdata, hpair⟩ := range_case .oneY d h
      exact ⟨hlen, Or.inr ⟨d, hsel, rfl, hsub, hdata, hpair⟩⟩
  | allTime =>
    rcases coingecko with _ | d
    · exact absurd h (by simp [fetchChartData])
    · obtain ⟨hlen, hsel, hsub, hdata, hpair⟩ := range_case .allTime d h
      exact ⟨hlen, Or.inr ⟨d, hsel, rfl, hsub, hdata, hpair⟩⟩

/-- Unfolding of the 1D branch of `fetchChartData`. -/
theorem fetchChartData_oneD (fmt : DateFormatter) (gemini : Option GeminiTicker)
    (coingecko : Option BitcoinHistoricalData) :
    fetchChartData fmt .oneD gemini coingecko
      = (match geminiHasData gemini with
         | some cs => some (chartFromGemini cs)
         | none => Option.bind coingecko (fun d => coinGecko1DChart fmt d)) := by
  rcases coingecko with _ | d <;> rfl

/-- C4: a payload carrying the `Error Message` key yields the
symbol-not-found error state; `Note` yields the rate-limit error state; a
missing `Time Series (Daily)` yields the missing-series error state; the
three messages are pairwise distinct, and an error result excludes any
published `MSTRData` record (so no numeric field of the payload is ever
parsed on these paths). -/
theorem mstr_soft_error_detection :
    (∀ p : AlphaVantagePayload, p.hasErrorMessage = true →
        fetchMSTRData p = .error "Invalid API call or symbol not found") ∧
    (∀ p : AlphaVantagePayload, p.hasErrorMessage = false → p.hasNote = true →
        fetchMSTRData p = .error "API call frequency limit reached") ∧
    (∀ p : AlphaVantagePayload, p.hasErrorMessage = false → p.hasNote = false →
        p.timeSeries = none →
        fetchMSTRData p = .error "No time series data available") ∧
    ((("Invalid API call or symbol not found" : String)
        ≠ "API call frequency limit reached") ∧
     (("Invalid API call or symbol not found" : String)
        ≠ "No time series data available") ∧
     (("API call frequency limit reached" : String)
        ≠ "No time series data available")) ∧
    (∀ (p : AlphaVantagePayload) (msg : String) (d : MSTRData),
        fetchMSTRData p = .error msg → fetchMSTRData p ≠ .ok d) := by
  refine ⟨?_, ?_, ?_, ⟨by decide, by decide, by decide⟩, ?_⟩
  · intro p hp
    simp [fetchMSTRData, hp]
  · intro p h1 h2
    simp [fetchMSTRData, h1, h2]
  · intro p h1 h2 h3
    simp [fetchMSTRData, h1, h2, h3]
  · intro p msg d he hok
    rw [he] at hok
    exact absurd hok (by simp)

/-- Witness for C4 at the three soft-error payloads. -/
theorem mstr_soft_error_detection_witness :
    fetchMSTRData mstrPayloadErrMsg
      = .error "Invalid API call or symbol not found" ∧
    fetchMSTRData mstrPayloadNote = .error "API call frequency limit reached" ∧
    fetchMSTRData mstrPayloadNoSeries
      = .error "No time series data available" :=
  ⟨mstr_soft_error_detection.1 mstrPayloadErrMsg rfl,
   mstr_soft_error_detection.2.1 mstrPayloadNote rfl rfl,
   mstr_soft_error_detection.2.2.1 mstrPayloadNoSeries rfl rfl rfl⟩

/-- C5: an empty or missing `prices` array (with the Gemini source also
failing when the interval is 1D) terminates the chart fetch in chart data
`null`, rendered as the explicit unavailable state, and leaves every
non-chart state cell untouched; the throw is absorbed by the fetch's own
catch. -/
theorem emptySeries_unavailable :
    ∀ (s : HomeState) (fmt : DateFormatter) (interval : TimeInterval)
      (gemini : Option GeminiTicker) (coingecko : Option BitcoinHistoricalData),
      (interval = .oneD → geminiHasData gemini = none) →
      (coingecko = none ∨ ∃ d, coingecko = some d ∧ d.prices = []) →
      ∀ s2, s2 = applyChartFetch s fmt interval gemini coingecko →
      s2.chartData = none ∧ renderChart s2 = .unavailable ∧
      s2.price = s.price ∧ s2.performanceData = s.performanceData ∧
      s2.error = s.error ∧ s2.lastUpdated = s.lastUpdated := by
  intro s fmt interval gemini coingecko hg hcg s2 hs2
  have hnone : fetchChartData fmt interval gemini coingecko = none := by
    rcases hcg with rfl | ⟨d, rfl, hd⟩
    · cases interval with
      | oneD => rw [fetchChartData_oneD, hg rfl]; rfl
      | oneW => rfl
      | oneM => rfl
      | oneY => rfl
      | allTime => rfl
    · cases interval with
      | oneD =>
        rw [fetchChartData_oneD, hg rfl]
        simp [coinGecko1DChart, hd]
      | oneW => simp [fetchChartData, coinGeckoRangeChart, hd]
      | oneM => simp [fetchChartData, coinGeckoRangeChart, hd]
      | oneY => simp [fetchChartData, coinGeckoRangeChart, hd]
      | allTime => simp [fetchChartData, coinGeckoRangeChart, hd]
  subst hs2
  refine ⟨by simp [applyChartFetch, hnone], ?_, rfl, rfl, rfl, rfl⟩
  simp [applyChartFetch, renderChart, hnone]

/-- Witness for C5: the 1W fetch against a failed CoinGecko request on a
populated home screen. -/
theorem emptySeries_unavailable_witness :
    (applyChartFetch homeState0 constFmt .oneW none none).chartData = none ∧
    renderChart (applyChartFetch homeState0 constFmt .oneW none none)
      = .unavailable ∧
    (applyChartFetch homeState0 constFmt .oneW none none).price
      = homeState0.price ∧
    (applyChartFetch homeState0 constFmt .oneW none none).performanceData
      = homeState0.performanceData ∧
    (applyChartFetch homeState0 constFmt .oneW none none).error
      = homeState0.error ∧
    (applyChartFetch homeState0 constFmt .oneW none none).lastUpdated
      = homeState0.lastUpdated :=
  emptySeries_unavailable homeState0 constFmt .oneW none none
    (fun h => absurd h (by decide)) (Or.inl rfl) _ rfl

/-- C6: for the 1D span the Gemini ticker decides the outcome first — a
nonempty `changes` array is published reversed (ascending
oldest-to-newest) with the CoinGecko response ignored — and the fetch
falls back to the stride-sampled CoinGecko source exactly when the Gemini
request threw or its `changes` array is missing or empty. -/
theorem oneD_gemini_preference :
    ∀ (fmt : DateFormatter) (gemini : Option GeminiTicker)
      (coingecko : Option BitcoinHistoricalData),
      (∀ changes, geminiHasData gemini = some changes →
        fetchChartData fmt .oneD gemini coingecko
          = some (chartFromGemini changes) ∧
        (chartFromGemini changes).data = changes.reverse) ∧
      (geminiHasData gemini = none →
        fetchChartData fmt .oneD gemini coingecko
          = Option.bind coingecko (fun d => coinGecko1DChart fmt d)) ∧
      (geminiHasData gemini = none ↔
        gemini = none ∨ ∃ t, gemini = some t ∧
          (t.changes = none ∨ t.changes = some [])) := by
  intro fmt gemini coingecko
  refine ⟨?_, ?_, ?_⟩
  · intro changes hg
    rw [fetchChartData_oneD, hg]
    exact ⟨rfl, rfl⟩
  · intro hg
    rw [fetchChartData_oneD, hg]
  · cases gemini with
    | none => simp [geminiHasData]
    | some t =>
      rcases t with ⟨ch⟩
      rcases ch with _ | ⟨_ | ⟨c, cs⟩⟩ <;> simp [geminiHasData]

/-- Witness for C6: a three-point newest-first Gemini response is
published reversed while the CoinGecko request is absent. -/
theorem oneD_gemini_preference_witness :
    fetchChartData constFmt .oneD (some geminiThree) none
      = some (chartFromGemini [3, 2, 1]) ∧
    (chartFromGemini [3, 2, 1]).data = [1, 2, 3] :=
  have h := (oneD_gemini_preference constFmt (some geminiThree) none).1 [3, 2, 1] rfl
  ⟨h.1, h.2.trans rfl⟩

/-- Witness for C3: the 1D fetch against the three-point Gemini response
publishes a series with as many labels as values, namely the reversed
`changes`. -/
theorem chartSeries_invariant_witness :
    (chartFromGemini [3, 2, 1]).labels.length
      = (chartFromGemini [3, 2, 1]).data.length ∧
    ((∃ changes, geminiHasData (some geminiThree) = some changes ∧
        (chartFromGemini [3, 2, 1]).data = changes.reverse) ∨
     (∃ d sel, (none : Option BitcoinHistoricalData) = some d ∧
        List.Sublist sel d.prices ∧
        (chartFromGemini [3, 2, 1]).data = sel.map Prod.snd ∧
        (List.Pairwise (fun p q : ℚ × ℚ => p.1 ≤ q.1) d.prices →
         List.Pairwise (fun p q : ℚ × ℚ => p.1 ≤ q.1) sel))) :=
  chartSeries_invariant constFmt .oneD (some geminiThree) none
    (chartFromGemini [3, 2, 1]) rfl

/-- Case analysis of the percent-change expression
`(change / previousClose) * 100` under JavaScript number semantics: a
zero denominator with nonzero numerator yields a signed infinity, `0 / 0`
yields NaN, and only a nonzero denominator yields a finite percent. -/
theorem jsPercent_cases (c pc : ℚ) :
    (pc = 0 → c ≠ 0 →
      jsMul (jsDiv (jsSub (.finite c) (.finite pc)) (.finite pc)) (.finite 100)
        = (if 0 < c then JsNum.inf else JsNum.negInf)) ∧
    (pc = 0 → c = 0 →
      jsMul (jsDiv (jsSub (.finite c) (.finite pc)) (.finite pc)) (.finite 100)
        = JsNum.nan) ∧
    (pc ≠ 0 →
      jsMul (jsDiv (jsSub (.finite c) (.finite pc)) (.finite pc)) (.finite 100)
        = JsNum.finite ((c - pc) / pc * 100)) := by
  refine ⟨?_, ?_, ?_⟩
  · intro hpc hc
    subst hpc
    by_cases h : 0 < c <;>
      simp [jsSub, jsDiv, jsMul, sub_zero, hc, h]
  · intro hpc hc
    subst hpc
    subst hc
    simp [jsSub, jsDiv, jsMul]
  · intro hpc
    simp [jsSub, jsDiv, jsMul, hpc]

/-- C7 (amended): neither strategy guards the percent denominator.  In
the equity strategy the published `priceChangePercent` is a signed
infinity when the previous close is zero and the latest close nonzero,
NaN when both are zero, and finite only for a nonzero previous close; the
self-derived bitcoin percent behaves identically over its
`previousPriceValue`.  Only undefined (not zero) previous data is
handled: the equity ternary falls back to the latest open, and the
bitcoin negative-index paths throw into the catch. -/
theorem percent_zero_denominator_unguarded :
    (∀ (p : AlphaVantagePayload) (latest : String × DailyEntry)
        (rest : List (String × DailyEntry)),
        p.hasErrorMessage = false → p.hasNote = false →
        p.timeSeries = some (latest :: rest) →
        (previousCloseOf latest rest = 0 → latest.2.close ≠ 0 →
          (fetchMSTRData p).map MSTRData.priceChangePercent
            = .ok (if 0 < latest.2.close then JsNum.inf else JsNum.negInf)) ∧
        (previousCloseOf latest rest = 0 → latest.2.close = 0 →
          (fetchMSTRData p).map MSTRData.priceChangePercent = .ok JsNum.nan) ∧
        (previousCloseOf latest rest ≠ 0 →
          (fetchMSTRData p).map MSTRData.priceChangePercent
            = .ok (JsNum.finite
                ((latest.2.close - previousCloseOf latest rest)
                  / previousCloseOf latest rest * 100)))) ∧
    (∀ (prices : List (ℚ × ℚ)) (lastP : ℚ × ℚ) (prev : ℚ),
        prices.getLast? = some lastP → previousPriceValue prices = some prev →
        (prev = 0 → lastP.2 ≠ 0 →
          selfDerivedPercentJs prices
            = some (if 0 < lastP.2 then JsNum.inf else JsNum.negInf)) ∧
        (prev = 0 → lastP.2 = 0 → selfDerivedPercentJs prices = some JsNum.nan) ∧
        (prev ≠ 0 →
          selfDerivedPercentJs prices
            = some (JsNum.finite ((lastP.2 - prev) / prev * 100)))) := by
  constructor
  · intro p latest rest h1 h2 h3
    have hfetch : (fetchMSTRData p).map MSTRData.priceChangePercent
        = .ok (jsMul (jsDiv (jsSub (.finite latest.2.close)
              (.finite (previousCloseOf latest rest)))
            (.finite (previousCloseOf latest rest))) (.finite 100)) := by
      simp [fetchMSTRData, h1, h2, h3, Except.map]
    refine ⟨fun hpc hc => ?_, fun hpc hc => ?_, fun hpc => ?_⟩
    · rw [hfetch, (jsPercent_cases latest.2.close (previousCloseOf latest rest)).1 hpc hc]
    · rw [hfetch, (jsPercent_cases latest.2.close (previousCloseOf latest rest)).2.1 hpc hc]
    · rw [hfetch, (jsPercent_cases latest.2.close (previousCloseOf latest rest)).2.2 hpc]
  · intro prices lastP prev hlast hprev
    have hself : selfDerivedPercentJs prices
        = some (jsMul (jsDiv (jsSub (.finite lastP.2) (.finite prev))
            (.finite prev)) (.finite 100)) := by
      simp [selfDerivedPercentJs, hlast, hprev]
    refine ⟨fun hpc hc => ?_, fun hpc hc => ?_, fun hpc => ?_⟩
    · rw [hself, (jsPercent_cases lastP.2 prev).1 hpc hc]
    · rw [hself, (jsPercent_cases lastP.2 prev).2.1 hpc hc]
    · rw [hself, (jsPercent_cases lastP.2 prev).2.2 hpc]

/-- Counterexample to C7 as stated: a well-formed two-day payload whose
previous close is exactly 0 makes the equity fetch publish
`priceChangePercent = Infinity` instead of omitting or zeroing it. -/
theorem mstr_zero_denominator_infinity :
    (fetchMSTRData mstrPayloadZeroPrev).map MSTRData.priceChangePercent
      = .ok JsNum.inf := by
  norm_num [fetchMSTRData, mstrPayloadZeroPrev, previousCloseOf,
    jsSub, jsDiv, jsMul, Except.map]

/-- Witness for C7's theorem: with nonzero previous closes both
strategies publish the finite percent. -/
theorem percent_zero_denominator_unguarded_witness :
    (fetchMSTRData mstrPayloadOk).map MSTRData.priceChangePercent
      = .ok (JsNum.finite (((150 : ℚ) - 100) / 100 * 100)) ∧
    selfDerivedPercentJs [((0 : ℚ), (10 : ℚ)), (1, 20)]
      = some (JsNum.finite (((20 : ℚ) - 10) / 10 * 100)) :=
  ⟨(percent_zero_denominator_unguarded.1 mstrPayloadOk _ _ rfl rfl rfl).2.2
      (by norm_num [previousCloseOf]),
   (percent_zero_denominator_unguarded.2 [((0 : ℚ), (10 : ℚ)), (1, 20)]
      (1, 20) 10 rfl rfl).2.2 (by norm_num)⟩

/-- C8: a successful fetch whose new price differs from the held price
sets the flash color (green above, red below) and schedules a single
clear timer for 2000 ms later; with no further price changes the color
survives every instant strictly before that deadline and is cleared to
neutral at the deadline and ever after. -/
theorem flash_autoclear :
    ∀ (s : HomeState) (isInitialLoad : Bool) (now : ℕ) (md : MarketData)
      (yd : BitcoinHistoricalData) (snap : BitcoinPerformanceData) (p : ℚ),
      computeDetailedSnapshot md yd = some snap →
      s.price = some p → md.current_price_usd ≠ p → s.pendingClears = [] →
      ∀ s2, s2 = fetchBitcoinDataStep s isInitialLoad now (.ok (some md)) (.ok yd) →
      s2.priceColor
        = some (if p < md.current_price_usd then greenColor else redColor) ∧
      s2.pendingClears = [now + 2000] ∧
      (∀ t, t < now + 2000 → (advanceClearsTo s2 t).priceColor = s2.priceColor) ∧
      (∀ t, now + 2000 ≤ t → (advanceClearsTo s2 t).priceColor = none) := by
  intro s iL now md yd snap p hsnap hp hne hpend s2 hs2
  have hcolor : s2.priceColor
      = some (if p < md.current_price_usd then greenColor else redColor) := by
    rw [hs2]
    simp [fetchBitcoinDataStep, hsnap, flashUpdate, hp, hne]
  have hclears : s2.pendingClears = [now + 2000] := by
    rw [hs2]
    simp [fetchBitcoinDataStep, hsnap, flashUpdate, hp, hne, hpend]
  refine ⟨hcolor, hclears, ?_, ?_⟩
  · intro t ht
    simp [advanceClearsTo, hclears, Nat.not_le.mpr ht]
  · intro t ht
    simp [advanceClearsTo, hclears, ht]

/-- Witness for C8: from a held price of 50000, a fetch of 51000 at time
1000 flashes green, keeps the flash at time 2999 and clears it at time
3000. -/
theorem flash_autoclear_witness :
    (fetchBitcoinDataStep homeState0 false 1000 (.ok (some mdFetch51000))
        (.ok ydOnePoint)).priceColor = some greenColor ∧
    (fetchBitcoinDataStep homeState0 false 1000 (.ok (some mdFetch51000))
        (.ok ydOnePoint)).pendingClears = [3000] ∧
    (advanceClearsTo (fetchBitcoinDataStep homeState0 false 1000
        (.ok (some mdFetch51000)) (.ok ydOnePoint)) 2999).priceColor
      = (fetchBitcoinDataStep homeState0 false 1000 (.ok (some mdFetch51000))
        (.ok ydOnePoint)).priceColor ∧
    (advanceClearsTo (fetchBitcoinDataStep homeState0 false 1000
        (.ok (some mdFetch51000)) (.ok ydOnePoint)) 3000).priceColor = none := by
  have H := flash_autoclear homeState0 false 1000 mdFetch51000 ydOnePoint
    snapFetch51000 50000
    (by norm_num [computeDetailedSnapshot, mdFetch51000, ydOnePoint, snapFetch51000])
    rfl (by norm_num [mdFetch51000]) rfl _ rfl
  refine ⟨H.1.trans (by norm_num [mdFetch51000]), H.2.1, H.2.2.1 2999 (by norm_num),
    H.2.2.2 3000 (by norm_num)⟩

/-- C9: every failing fetch cycle — thrown request, soft API error, or
missing/empty series — leaves the previously published data untouched:
only the error message (and, on an initial load, the loading flag) is
written, on both the bitcoin and the MSTR screens. -/
theorem fetch_failure_atomicity :
    (∀ (s : HomeState) (iL : Bool) (now : ℕ)
        (detailed : FetchResp (Option MarketData))
        (yearly : FetchResp BitcoinHistoricalData),
        (fetchBitcoinDataStep s iL now detailed yearly).error ≠ none →
        (fetchBitcoinDataStep s iL now detailed yearly).price = s.price ∧
        (fetchBitcoinDataStep s iL now detailed yearly).previousPrice
          = s.previousPrice ∧
        (fetchBitcoinDataStep s iL now detailed yearly).performanceData
          = s.performanceData ∧
        (fetchBitcoinDataStep s iL now detailed yearly).lastUpdated
          = s.lastUpdated ∧
        (fetchBitcoinDataStep s iL now detailed yearly).priceColor
          = s.priceColor) ∧
    (∀ (s : StrategyState) (iL : Bool) (now : ℕ)
        (resp : FetchResp AlphaVantagePayload),
        (fetchMSTRStep s iL now resp).error ≠ none →
        (fetchMSTRStep s iL now resp).mstrData = s.mstrData ∧
        (fetchMSTRStep s iL now resp).previousPrice = s.previousPrice ∧
        (fetchMSTRStep s iL now resp).lastUpdated = s.lastUpdated ∧
        (fetchMSTRStep s iL now resp).priceColor = s.priceColor) := by
  constructor
  · intro s iL now detailed yearly herr
    rcases detailed with md? | m
    · rcases md? with _ | md
      · simp [fetchBitcoinDataStep]
      · rcases yearly with yd | m
        · cases hc : computeDetailedSnapshot md yd with
          | none => simp [fetchBitcoinDataStep, hc]
          | some snap =>
            have : (fetchBitcoinDataStep s iL now (.ok (some md)) (.ok yd)).error
                = none := by
              simp [fetchBitcoinDataStep, hc]
            exact absurd this herr
        · simp [fetchBitcoinDataStep]
    · simp [fetchBitcoinDataStep]
  · intro s iL now resp herr
    rcases resp with payload | m
    · cases hm : fetchMSTRData payload with
      | error m => simp [fetchMSTRStep, hm]
      | ok d =>
        have : (fetchMSTRStep s iL now (.ok payload)).error = none := by
          simp [fetchMSTRStep, hm]
        exact absurd this herr
    · simp [fetchMSTRStep]

/-- Witness for C9: a thrown bitcoin request and a rate-limited MSTR
payload both leave the populated states' data cells unchanged. -/
theorem fetch_failure_atomicity_witness :
    ((fetchBitcoinDataStep homeState0 false 5 (.err "network")
        (.ok ydOnePoint)).price = homeState0.price ∧
     (fetchBitcoinDataStep homeState0 false 5 (.err "network")
        (.ok ydOnePoint)).previousPrice = homeState0.previousPrice ∧
     (fetchBitcoinDataStep homeState0 false 5 (.err "network")
        (.ok ydOnePoint)).performanceData = homeState0.performanceData ∧
     (fetchBitcoinDataStep homeState0 false 5 (.err "network")
        (.ok ydOnePoint)).lastUpdated = homeState0.lastUpdated ∧
     (fetchBitcoinDataStep homeState0 false 5 (.err "network")
        (.ok ydOnePoint)).priceColor = homeState0.priceColor) ∧
    ((fetchMSTRStep stratState0 false 5 (.ok mstrPayloadNote)).mstrData
        = stratState0.mstrData ∧
     (fetchMSTRStep stratState0 false 5 (.ok mstrPayloadNote)).previousPrice
        = stratState0.previousPrice ∧
     (fetchMSTRStep stratState0 false 5 (.ok mstrPayloadNote)).lastUpdated
        = stratState0.lastUpdated ∧
     (fetchMSTRStep stratState0 false 5 (.ok mstrPayloadNote)).priceColor
        = stratState0.priceColor) :=
  ⟨fetch_failure_atomicity.1 homeState0 false 5 (.err "network") (.ok ydOnePoint)
     (by simp [fetchBitcoinDataStep]),
   fetch_failure_atomicity.2 stratState0 false 5 (.ok mstrPayloadNote)
     (by simp [fetchMSTRStep, fetchMSTRData, mstrPayloadNote])⟩

/-- C10: in both bitcoin fetch variants a successful cycle never sets a
flash when no price is held yet (first-ever fetch) or when the new price
equals the held one; it sets the green/red flash exactly when a held
price exists and the new price strictly differs. -/
theorem flash_set_conditions :
    (∀ (s : HomeState) (iL : Bool) (now : ℕ) (md : MarketData)
        (yd : BitcoinHistoricalData) (snap : BitcoinPerformanceData),
        computeDetailedSnapshot md yd = some snap →
        ∀ s2, s2 = fetchBitcoinDataStep s iL now (.ok (some md)) (.ok yd) →
        (s.price = none →
          s2.priceColor = s.priceColor ∧ s2.pendingClears = s.pendingClears) ∧
        (s.price = some md.current_price_usd →
          s2.priceColor = s.priceColor ∧ s2.pendingClears = s.pendingClears) ∧
        (∀ p, s.price = some p → md.current_price_usd ≠ p →
          s2.priceColor
            = some (if p < md.current_price_usd then greenColor else redColor))) ∧
    (∀ (s : HomeState) (iL : Bool) (now : ℕ)
        (yd : BitcoinHistoricalData) (snap : BitcoinPerformanceData),
        computeSelfDerivedSnapshot yd = some snap →
        ∀ s2, s2 = fetchBitcoinDataSelfStep s iL now (.ok yd) →
        (s.price = none →
          s2.priceColor = s.priceColor ∧ s2.pendingClears = s.pendingClears) ∧
        (s.price = some snap.currentPrice →
          s2.priceColor = s.priceColor ∧ s2.pendingClears = s.pendingClears) ∧
        (∀ p, s.price = some p → snap.currentPrice ≠ p →
          s2.priceColor
            = some (if p < snap.currentPrice then greenColor else redColor))) := by
  constructor
  · intro s iL now md yd snap hsnap s2 hs2
    subst hs2
    refine ⟨fun hp => ?_, fun hp => ?_, fun p hp hne => ?_⟩
    · constructor <;> simp [fetchBitcoinDataStep, hsnap, flashUpdate, hp]
    · constructor <;> simp [fetchBitcoinDataStep, hsnap, flashUpdate, hp]
    · simp [fetchBitcoinDataStep, hsnap, flashUpdate, hp, hne]
  · intro s iL now yd snap hsnap s2 hs2
    subst hs2
    refine ⟨fun hp => ?_, fun hp => ?_, fun p hp hne => ?_⟩
    · constructor <;> simp [fetchBitcoinDataSelfStep, hsnap, flashUpdate, hp]
    · constructor <;> simp [fetchBitcoinDataSelfStep, hsnap, flashUpdate, hp]
    · simp [fetchBitcoinDataSelfStep, hsnap, flashUpdate, hp, hne]

/-- Witness for C10: a first-ever fetch of 51000 sets no flash; a fetch
matching the held 51000 sets no flash; a fetch of 51000 against a held
50000 flashes; a self-derived fetch of 60000 against a held 50000
flashes. -/
theorem flash_set_conditions_witness :
    ((fetchBitcoinDataStep homeStateFresh true 7 (.ok (some mdFetch51000))
        (.ok ydOnePoint)).priceColor = homeStateFresh.priceColor ∧
     (fetchBitcoinDataStep homeStateFresh true 7 (.ok (some mdFetch51000))
        (.ok ydOnePoint)).pendingClears = homeStateFresh.pendingClears) ∧
    ((fetchBitcoinDataStep homeState51000 false 7 (.ok (some mdFetch51000))
        (.ok ydOnePoint)).priceColor = homeState51000.priceColor ∧
     (fetchBitcoinDataStep homeState51000 false 7 (.ok (some mdFetch51000))
        (.ok ydOnePoint)).pendingClears = homeState51000.pendingClears) ∧
    (fetchBitcoinDataStep homeState0 false 7 (.ok (some mdFetch51000))
        (.ok ydOnePoint)).priceColor
      = some (if (50000 : ℚ) < 51000 then greenColor else redColor) ∧
    (fetchBitcoinDataSelfStep homeState0 false 7 (.ok ydTwoPoint)).priceColor
      = some (if (50000 : ℚ) < 60000 then greenColor else redColor) := by
  have hdet : computeDetailedSnapshot mdFetch51000 ydOnePoint
      = some snapFetch51000 := by
    norm_num [computeDetailedSnapshot, mdFetch51000, ydOnePoint, snapFetch51000]
  have hself : computeSelfDerivedSnapshot ydTwoPoint = some snapSelfTwoPoint := by
    simp [computeSelfDerivedSnapshot, ydTwoPoint, snapSelfTwoPoint,
      previousPriceValue, jsMathMax, jsMathMin]
    norm_num
  exact ⟨(flash_set_conditions.1 homeStateFresh true 7 mdFetch51000 ydOnePoint
        snapFetch51000 hdet _ rfl).1 rfl,
    (flash_set_conditions.1 homeState51000 false 7 mdFetch51000 ydOnePoint
        snapFetch51000 hdet _ rfl).2.1 rfl,
    (flash_set_conditions.1 homeState0 false 7 mdFetch51000 ydOnePoint
        snapFetch51000 hdet _ rfl).2.2 50000 rfl (by norm_num [mdFetch51000]),
    (flash_set_conditions.2 homeState0 false 7 ydTwoPoint snapSelfTwoPoint
        hself _ rfl).2.2 50000 rfl (by norm_num [snapSelfTwoPoint])⟩

end BitcoinApp
